import Mathlib

/-!
Verification of the telemetry-window and dashboard-layout core of the
nvidia-rs terminal dashboard (src/main.rs), as a shallow embedding in Lean.

The per-metric history is a fixed array `[u32; 30]`; each tick performs
`rotate_left(1)` followed by overwriting index 29 with the newest reading.
Charts are built from the window by zipping with the time range `-29..=0`,
with y-axis bounds `[0.0, samples[29].max(1) as f64]` and fixed x-axis
bounds `[-30.0, 0.0]`.  Startup exits with code 1 when no devices exist.
We model `u32` samples as `Nat` (all operations here are overflow-free:
rotation, copy, `max`, and an exact cast to `f64`, which we render in `ℚ`),
and arrays as lists whose length-30 invariant is proved, not assumed.
-/

namespace NvidiaRs

/-- Window capacity: the Rust arrays are `[u32; 30]`. -/
def capacity : Nat := 30

/-- Rust `slice::rotate_left(1)` on the sample array: the first element
moves to the end, everything else shifts left one place. -/
def rotateLeft1 (l : List Nat) : List Nat :=
  l.drop 1 ++ l.take 1

/-- One tick's mutation of a metric window in `update_state`:
`gpu_info.core_clock.rotate_left(1); gpu_info.core_clock[29] = reading`. -/
def push (l : List Nat) (v : Nat) : List Nat :=
  (rotateLeft1 l).set 29 v

/-- `GPUInfo` from src/main.rs: two metric windows and a display name. -/
structure GPUInfo where
  core_clock : List Nat
  temperature : List Nat
  device_name : String
  deriving DecidableEq, Repr

/-- The `GPUInfo` pushed at device discovery in `run_app`:
`core_clock: [0; 30], temperature: [0; 30], device_name`. -/
def initGPU (name : String) : GPUInfo :=
  { core_clock := List.replicate 30 0
    temperature := List.replicate 30 0
    device_name := name }

/-- One iteration of `update_state` for a single device: push the fresh
clock reading and the fresh temperature reading into their windows. -/
def updateGPU (g : GPUInfo) (clock temp : Nat) : GPUInfo :=
  { g with
    core_clock := push g.core_clock clock
    temperature := push g.temperature temp }

/-- Fold a whole run of per-tick readings over a freshly discovered device:
the state of one `GPUInfo` after any sequence of `update_state` ticks. -/
def updateRun (name : String) (readings : List (Nat × Nat)) : GPUInfo :=
  readings.foldl (fun g r => updateGPU g r.1 r.2) (initGPU name)

/-- The newest sample: the source reads `gpu_info.core_clock[29]`
(always in bounds on the `[u32; 30]` array; out of range defaults to 0
in this list model, a case ruled out by the length invariant). -/
def current (l : List Nat) : Nat := l.getD 29 0

/-- The time stamps the source zips the window with: the Rust range
`-29..=0`, i.e. the 30 integers -29, -28, ..., 0 in order. -/
def timeStamps : List Int :=
  (List.range 30).map (fun i => (i : Int) - 29)

/-- The chart data built in `draw`: zip the samples with `-29..=0` and
map each `(sample, time)` pair to the point `(time, sample)`.  Rust `zip`
truncates to the shorter side, as does `List.zip`. -/
def asPoints (l : List Nat) : List (Int × Nat) :=
  (l.zip timeStamps).map (fun p => (p.2, p.1))

/-- The y-axis bounds of a metric chart: `[0.0, current.max(1) as f64]`
where `current` is the newest sample (`samples[29]`).  `u32 → f64` is
exact, so we state the bounds in `ℚ`. -/
def yAxisBounds (l : List Nat) : ℚ × ℚ :=
  (0, ((max (current l) 1 : ℕ) : ℚ))

/-- The x-axis bounds of every chart in `draw`: the literal `[-30.0, 0.0]`. -/
def xAxisBounds : ℚ × ℚ := (-30, 0)

/-- The geometry and data `draw` hands the rendering surface for one chart. -/
structure ChartSpec where
  title : String
  data : List (Int × Nat)
  xBounds : ℚ × ℚ
  yBounds : ℚ × ℚ
  deriving DecidableEq, Repr

/-- The clock chart `draw` builds for one device. -/
def clockChart (g : GPUInfo) : ChartSpec :=
  { title := "NVIDIA GPU Clock - " ++ g.device_name
    data := asPoints g.core_clock
    xBounds := xAxisBounds
    yBounds := yAxisBounds g.core_clock }

/-- The temperature chart `draw` builds for one device. -/
def tempChart (g : GPUInfo) : ChartSpec :=
  { title := "NVIDIA GPU Temperature - " ++ g.device_name
    data := asPoints g.temperature
    xBounds := xAxisBounds
    yBounds := yAxisBounds g.temperature }

/-- The diagnostic printed to stderr when no GPU is found. -/
def noGpuMessage : String :=
  "Error: No GPUs found. Please ensure that your system has NVIDIA GPUs installed and try again."

/-- A `std::process::exit` observed from outside: exit code plus the
diagnostic written to stderr just before it. -/
structure ExitAction where
  code : Nat
  stderrMsg : String
  deriving DecidableEq, Repr

/-- Startup phase of `run_app`: query the device count; if it is zero,
print the diagnostic and exit with code 1 before any `GPUInfo` (hence any
telemetry window) is constructed; otherwise build one zero-initialised
`GPUInfo` per device in enumeration order. -/
def startup (deviceCount : Nat) (names : Nat → String) :
    Except ExitAction (List GPUInfo) :=
  if deviceCount = 0 then
    Except.error { code := 1, stderrMsg := noGpuMessage }
  else
    Except.ok ((List.range deviceCount).map (fun i => initGPU (names i)))

/-- Rust `as u16` truncating cast, as used in `num_gpus as u16`. -/
def u16cast (n : Nat) : Nat := n % 65536

/-- Rust integer division, which panics on a zero divisor; the panic is
modelled as `none`. -/
def checkedDiv (a b : Nat) : Option Nat :=
  if b = 0 then none else some (a / b)

/-- The outcome of the layout prologue of `draw`: either the zero-device
exit, or the list of per-device vertical percentage constraints. -/
inductive DrawStep where
  | exit (a : ExitAction)
  | layout (constraints : List (Option Nat))
  deriving DecidableEq, Repr

/-- The layout prologue of `draw`: exit(1) when `self.gpus` is empty,
else `percentage = 100 / num_gpus as u16` computed once and replicated
into one `Constraint::Percentage` per device. -/
def drawLayoutStep (gpus : List GPUInfo) : DrawStep :=
  if gpus.length = 0 then
    DrawStep.exit { code := 1, stderrMsg := noGpuMessage }
  else
    DrawStep.layout
      (List.replicate gpus.length (checkedDiv 100 (u16cast gpus.length)))

/-- The vertical constraints computed in `Widget::render` for `&NvidiaApp`:
`self.gpus.iter().map(|_| Constraint::Percentage(100 / self.gpus.len() as u16))`.
There is no zero-device check; the division sits inside the per-device
closure, so it is evaluated once per element of `gpus`. -/
def widgetConstraints (gpus : List GPUInfo) : List (Option Nat) :=
  gpus.map (fun _ => checkedDiv 100 (u16cast gpus.length))

/-- Whether every division the `Widget::render` constraint computation
actually executes is well-defined (no divide-by-zero panic). -/
def widgetLayoutDefined (gpus : List GPUInfo) : Bool :=
  (widgetConstraints gpus).all (fun c => c.isSome)

/-- Modelled from the spec: the rendering surface's vertical partition of
a canvas of height `h` into `n` device rows is performed by the ratatui
`Layout` solver, which is not part of this repository's sources.  The
spec's contract requires only equal shares `h / n` with the remainder
distributed one row at a time so that the shares sum to `h`; `fairShares
q r n` emits `n` rows of `q` rows each, the first `r` of them enlarged by
one. -/
def fairShares (q r : Nat) : Nat → List Nat
  | 0 => []
  | n + 1 => (if 0 < r then q + 1 else q) :: fairShares q (r - 1) n

/-- Modelled from the spec: `partition(canvas, N)` splits the canvas
height into `N` vertical shares of `height / N` rows each, remainder
distributed by the surface's rounding. -/
def partitionHeights (h n : Nat) : List Nat :=
  fairShares (h / n) (h % n) n

/-- Modelled from the spec: the per-device horizontal 50%/50% split of a
row of width `w` into the clock half and the temperature half, equal up
to one cell for odd widths; the actual rect arithmetic is done by the
ratatui `Layout` solver, outside this repository's sources.  The source
requests it with `[Constraint::Percentage(50), Constraint::Percentage(50)]`. -/
def splitHalves (w : Nat) : List Nat :=
  [w / 2, w - w / 2]

/-- A terminal rectangle, as ratatui's `Rect`: position and size in cells. -/
structure Rect where
  x : Nat
  y : Nat
  width : Nat
  height : Nat
  deriving DecidableEq, Repr

/-- Modelled from the spec: the left rectangle of the 50%/50% horizontal
split of a device row, as produced by the ratatui `Layout` solver
(outside this repository's sources): same position and height as the
row, half its width. -/
def leftHalf (r : Rect) : Rect :=
  { x := r.x, y := r.y, width := r.width / 2, height := r.height }

/-- Modelled from the spec: the right rectangle of the 50%/50% horizontal
split of a device row: it starts where the left half ends and takes the
remaining width, so the two halves tile the row. -/
def rightHalf (r : Rect) : Rect :=
  { x := r.x + r.width / 2, y := r.y, width := r.width - r.width / 2
    height := r.height }

/-- The per-device chunk list `gpu_chunks` returned by the horizontal
split of `chunks[i]` in `draw`: two rectangles, left then right. -/
def splitDeviceRow (r : Rect) : List Rect :=
  [leftHalf r, rightHalf r]

/-- The per-device chart placement in `draw`:
`clock_chunk = gpu_chunks[0]; temp_chunk = gpu_chunks[1]`, then the clock
chart is rendered into `clock_chunk` and the temperature chart into
`temp_chunk`, in that order. -/
def renderDevice (g : GPUInfo) (row : Rect) : List (Rect × ChartSpec) :=
  [((splitDeviceRow row).getD 0 row, clockChart g),
   ((splitDeviceRow row).getD 1 row, tempChart g)]

/- ### Window push lemmas -/

/-- Setting at the length of the left part of an append lands in the
right part. -/
lemma set_append_left_length (xs ys : List Nat) (v : Nat) :
    (xs ++ ys).set xs.length v = xs ++ ys.set 0 v := by
  induction xs with
  | nil => simp
  | cons a t ih => simp [List.set, ih]

/-- On a full window (length 30), a push drops the oldest sample and
appends the new one. -/
lemma push_eq_drop_append (l : List Nat) (v : Nat) (h : l.length = 30) :
    push l v = l.drop 1 ++ [v] := by
  match l, h with
  | a :: t, h =>
    have ht : t.length = 29 := by simpa using h
    have : push (a :: t) v = (t ++ [a]).set 29 v := by
      simp [push, rotateLeft1]
    rw [this, ← ht, set_append_left_length]
    simp

/-- A push preserves the length-30 invariant. -/
lemma push_length (l : List Nat) (v : Nat) (h : l.length = 30) :
    (push l v).length = 30 := by
  rw [push_eq_drop_append l v h]
  simp [h]

/-- Folding pushes over a full window keeps exactly the last 30 elements
of the initial window followed by the pushed values. -/
lemma foldl_push_eq (vs : List Nat) :
    ∀ init : List Nat, init.length = 30 →
      vs.foldl push init = (init ++ vs).drop vs.length := by
  induction vs with
  | nil => intro init _; simp
  | cons v tl ih =>
    intro init hinit
    have hpush := push_eq_drop_append init v hinit
    have hlen := push_length init v hinit
    have := ih (push init v) hlen
    calc (v :: tl).foldl push init
        = tl.foldl push (push init v) := by simp [List.foldl]
      _ = ((push init v) ++ tl).drop tl.length := this
      _ = ((init.drop 1 ++ [v]) ++ tl).drop tl.length := by rw [hpush]
      _ = (init.drop 1 ++ (v :: tl)).drop tl.length := by
            rw [List.append_assoc]; rfl
      _ = (init ++ (v :: tl)).drop (v :: tl).length := by
        match init, hinit with
        | a :: t, _ => simp

/-- Folding `update_state` ticks preserves the length-30 invariant of
both metric windows. -/
lemma foldl_update_lengths (readings : List (Nat × Nat)) :
    ∀ g : GPUInfo, g.core_clock.length = 30 → g.temperature.length = 30 →
      (readings.foldl (fun g r => updateGPU g r.1 r.2) g).core_clock.length = 30 ∧
      (readings.foldl (fun g r => updateGPU g r.1 r.2) g).temperature.length = 30 := by
  induction readings with
  | nil => intro g hc ht; exact ⟨hc, ht⟩
  | cons r tl ih =>
    intro g hc ht
    exact ih (updateGPU g r.1 r.2) (push_length _ _ hc) (push_length _ _ ht)

/- ### Claim theorems -/

/-- C1: along every sequence of `update_state` ticks, each metric window
of a device has length exactly `capacity = 30`, including at discovery
time, where both windows are 30 zeros. -/
theorem C1_window_length_invariant (name : String) (readings : List (Nat × Nat)) :
    (initGPU name).core_clock = List.replicate 30 0 ∧
    (initGPU name).temperature = List.replicate 30 0 ∧
    (initGPU name).core_clock.length = capacity ∧
    (initGPU name).temperature.length = capacity ∧
    (updateRun name readings).core_clock.length = capacity ∧
    (updateRun name readings).temperature.length = capacity := by
  have h := foldl_update_lengths readings (initGPU name)
      (by simp [initGPU]) (by simp [initGPU])
  exact ⟨rfl, rfl, by simp [initGPU, capacity], by simp [initGPU, capacity],
    h.1, h.2⟩

/-- C2: after at least 30 pushes into a full window, index 29 holds the
most recently pushed value and index 0 holds the value pushed 29 pushes
earlier: the rotate-and-overwrite push is a fixed-size FIFO with the
oldest sample at index 0 and the newest at index 29. -/
theorem C2_fifo_order (init vs : List Nat)
    (hinit : init.length = 30) (hvs : 30 ≤ vs.length) :
    (vs.foldl push init)[29]? = vs[vs.length - 1]? ∧
    (vs.foldl push init)[0]? = vs[vs.length - 30]? := by
  have h1 : vs.foldl push init = (init ++ vs).drop vs.length :=
    foldl_push_eq vs init hinit
  constructor
  · rw [h1, List.getElem?_drop,
      List.getElem?_append_right (by omega : init.length ≤ vs.length + 29)]
    congr 1
    omega
  · rw [h1, List.getElem?_drop,
      List.getElem?_append_right (by omega : init.length ≤ vs.length + 0)]
    congr 1
    omega

/-- C2 witness: the FIFO property instantiated on the all-zero start
window and the thirty pushed values 1, 2, ..., 30. -/
theorem C2_fifo_order_witness :
    (((List.range 30).map (fun i => i + 1)).foldl push
        (List.replicate 30 0))[29]? =
      ((List.range 30).map (fun i => i + 1))[((List.range 30).map (fun i => i + 1)).length - 1]? ∧
    (((List.range 30).map (fun i => i + 1)).foldl push
        (List.replicate 30 0))[0]? =
      ((List.range 30).map (fun i => i + 1))[((List.range 30).map (fun i => i + 1)).length - 30]? :=
  C2_fifo_order (List.replicate 30 0) ((List.range 30).map (fun i => i + 1))
    (by decide) (by decide)

/-- C7: starting from a freshly discovered device (all-zero windows), 35
ticks pushing clock values 1 through 35 leave the clock window holding
exactly the last 30 values 6, 7, ..., 35, with newest sample 35 and
y-axis bounds (0, 35). -/
theorem C7_end_to_end_scenario :
    (updateRun "dev" ((List.range 35).map (fun i => (i + 1, i + 1)))).core_clock =
      (List.range 30).map (fun i => i + 6) ∧
    current (updateRun "dev" ((List.range 35).map (fun i => (i + 1, i + 1)))).core_clock = 35 ∧
    yAxisBounds (updateRun "dev" ((List.range 35).map (fun i => (i + 1, i + 1)))).core_clock =
      (0, (35 : ℚ)) := by
  refine ⟨by decide, by decide, ?_⟩
  have h : current (updateRun "dev" ((List.range 35).map (fun i => (i + 1, i + 1)))).core_clock = 35 := by
    decide
  rw [yAxisBounds, h]
  norm_num

/-- C3: for every window state, both charts get y-axis bounds
`(0, max(newest sample, 1))`; the upper bound is never below 1 and equals
the newest sample whenever that sample is at least 1 — the bound tracks
the latest reading, not the historical maximum. -/
theorem C3_y_axis_bounds (g : GPUInfo) :
    (clockChart g).yBounds = (0, ((max (current g.core_clock) 1 : ℕ) : ℚ)) ∧
    (tempChart g).yBounds = (0, ((max (current g.temperature) 1 : ℕ) : ℚ)) ∧
    (1 : ℚ) ≤ (clockChart g).yBounds.2 ∧
    (1 : ℚ) ≤ (tempChart g).yBounds.2 ∧
    (1 ≤ current g.core_clock →
      (clockChart g).yBounds.2 = (current g.core_clock : ℚ)) ∧
    (1 ≤ current g.temperature →
      (tempChart g).yBounds.2 = (current g.temperature : ℚ)) := by
  refine ⟨rfl, rfl, ?_, ?_, ?_, ?_⟩
  · show (1 : ℚ) ≤ ((max (current g.core_clock) 1 : ℕ) : ℚ)
    exact_mod_cast le_max_right (current g.core_clock) 1
  · show (1 : ℚ) ≤ ((max (current g.temperature) 1 : ℕ) : ℚ)
    exact_mod_cast le_max_right (current g.temperature) 1
  · intro h
    show ((max (current g.core_clock) 1 : ℕ) : ℚ) = (current g.core_clock : ℚ)
    rw [max_eq_left h]
  · intro h
    show ((max (current g.temperature) 1 : ℕ) : ℚ) = (current g.temperature : ℚ)
    rw [max_eq_left h]

/-- C3 witness: after one tick pushing clock 7 and temperature 3, the
clock chart's upper bound is at least 1 and equals the newest sample. -/
theorem C3_y_axis_bounds_witness :
    (1 : ℚ) ≤ (clockChart (updateGPU (initGPU "w") 7 3)).yBounds.2 ∧
    (clockChart (updateGPU (initGPU "w") 7 3)).yBounds.2 =
      (current (updateGPU (initGPU "w") 7 3).core_clock : ℚ) :=
  ⟨(C3_y_axis_bounds (updateGPU (initGPU "w") 7 3)).2.2.1,
   (C3_y_axis_bounds (updateGPU (initGPU "w") 7 3)).2.2.2.2.1 (by decide)⟩

/-- C5: on a full window, the chart projection yields exactly 30 points,
whose time components are -29, -28, ..., 0 in ascending unit steps and
whose value components are the window's samples in the same order. -/
theorem C5_as_points_projection (l : List Nat) (h : l.length = 30) :
    (asPoints l).length = capacity ∧
    (asPoints l).map Prod.fst = (List.range 30).map (fun i => (i : Int) - 29) ∧
    (asPoints l).map Prod.snd = l := by
  have hts : timeStamps.length = 30 := by decide
  refine ⟨?_, ?_, ?_⟩
  · simp [asPoints, h, hts, capacity]
  · have h2 : (asPoints l).map Prod.fst = (l.zip timeStamps).map Prod.snd := by
      simp only [asPoints, List.map_map]
      rfl
    rw [h2, List.map_snd_zip l timeStamps (by omega)]
    rfl
  · have h2 : (asPoints l).map Prod.snd = (l.zip timeStamps).map Prod.fst := by
      simp only [asPoints, List.map_map]
      rfl
    rw [h2, List.map_fst_zip l timeStamps (by omega)]

/-- C5 witness: the projection property evaluated on a fresh all-zero
window. -/
theorem C5_as_points_projection_witness :
    (asPoints (List.replicate 30 5)).length = capacity ∧
    (asPoints (List.replicate 30 5)).map Prod.fst =
      (List.range 30).map (fun i => (i : Int) - 29) ∧
    (asPoints (List.replicate 30 5)).map Prod.snd = List.replicate 30 5 :=
  C5_as_points_projection (List.replicate 30 5) (by decide)

/-- C8: when the provider reports zero devices at startup, the program
exits with code 1 after the stderr diagnostic, and no `GPUInfo` (hence no
telemetry window) is ever constructed: the startup result carries no
device list. -/
theorem C8_zero_devices_fatal (names : Nat → String) :
    startup 0 names = Except.error { code := 1, stderrMsg := noGpuMessage } ∧
    ∀ gpus : List GPUInfo, startup 0 names ≠ Except.ok gpus := by
  refine ⟨rfl, ?_⟩
  intro gpus hcontra
  simp [startup] at hcontra

/-- C9: the x-axis bounds of both charts are the fixed pair (-30, 0) for
every device and every window state, independent of the plotted data. -/
theorem C9_x_axis_bounds_fixed (g : GPUInfo) :
    (clockChart g).xBounds = (-30, 0) ∧ (tempChart g).xBounds = (-30, 0) :=
  ⟨rfl, rfl⟩

/- ### Partition lemmas (spec-modelled rendering-surface split) -/

/-- The fair-share list always has exactly `n` entries. -/
lemma fairShares_length (q : Nat) : ∀ n r, (fairShares q r n).length = n := by
  intro n
  induction n with
  | zero => intro r; rfl
  | succ m ih => intro r; simp [fairShares, ih]

/-- The fair shares sum to `n * q` plus one extra row for each of the
first `min r n` entries. -/
lemma fairShares_sum (q : Nat) : ∀ n r, (fairShares q r n).sum = n * q + min r n := by
  intro n
  induction n with
  | zero => intro r; simp [fairShares]
  | succ m ih =>
    intro r
    match r with
    | 0 =>
      simp [fairShares, ih]
      ring
    | s + 1 =>
      simp [fairShares, ih, Nat.succ_min_succ]
      ring

/-- Every fair share is either `q` or `q + 1`. -/
lemma fairShares_mem (q : Nat) :
    ∀ n r x, x ∈ fairShares q r n → x = q ∨ x = q + 1 := by
  intro n
  induction n with
  | zero => intro r x hx; simp [fairShares] at hx
  | succ m ih =>
    intro r x hx
    rw [fairShares, List.mem_cons] at hx
    rcases hx with h | h
    · by_cases h0 : 0 < r
      · simp [h0] at h; exact Or.inr h
      · simp [h0] at h; exact Or.inl h
    · exact ih (r - 1) x h

/-- C4: for every canvas height and every device count N ≥ 1, the
vertical partition yields exactly N rows whose heights sum to the full
canvas height, no row exceeding another by more than one row unit. -/
theorem C4_vertical_partition (h n : Nat) (hn : 1 ≤ n) :
    (partitionHeights h n).length = n ∧
    (partitionHeights h n).sum = h ∧
    ∀ a ∈ partitionHeights h n, ∀ b ∈ partitionHeights h n, a ≤ b + 1 := by
  refine ⟨fairShares_length _ _ _, ?_, ?_⟩
  · rw [partitionHeights, fairShares_sum]
    have h1 : h % n < n := Nat.mod_lt _ (by omega)
    rw [min_eq_left (le_of_lt h1)]
    exact Nat.div_add_mod h n
  · intro a ha b hb
    rcases fairShares_mem _ _ _ a ha with h1 | h1 <;>
      rcases fairShares_mem _ _ _ b hb with h2 | h2 <;> omega

/-- C4 witness: partitioning a height-10 canvas across 3 devices gives
3 rows summing to 10. -/
theorem C4_vertical_partition_witness :
    (partitionHeights 10 3).length = 3 ∧ (partitionHeights 10 3).sum = 10 :=
  ⟨(C4_vertical_partition 10 3 (by decide)).1,
   (C4_vertical_partition 10 3 (by decide)).2.1⟩

/-- C6: for every device state and every per-device row rectangle, the
horizontal split produces exactly two rectangles whose widths sum to the
row's width and differ by at most one cell, tiled left to right, and the
draw step renders the device's clock chart into the left half and its
temperature chart into the right half. -/
theorem C6_horizontal_half_split (g : GPUInfo) (r : Rect) :
    (splitDeviceRow r).length = 2 ∧
    (splitDeviceRow r).map Rect.width = splitHalves r.width ∧
    ((splitDeviceRow r).map Rect.width).sum = r.width ∧
    (∀ a ∈ (splitDeviceRow r).map Rect.width,
      ∀ b ∈ (splitDeviceRow r).map Rect.width, a ≤ b + 1) ∧
    (leftHalf r).x = r.x ∧
    (rightHalf r).x = r.x + (leftHalf r).width ∧
    renderDevice g r = [(leftHalf r, clockChart g), (rightHalf r, tempChart g)] := by
  refine ⟨rfl, rfl, ?_, ?_, rfl, rfl, rfl⟩
  · simp [splitDeviceRow, leftHalf, rightHalf]
    omega
  · intro a ha b hb
    simp [splitDeviceRow, leftHalf, rightHalf] at ha hb
    rcases ha with h | h <;> rcases hb with h2 | h2 <;> omega

/-- C10 counterexample: with an empty device list, the `Widget::render`
constraint computation executes no division at all — the per-device
closure never runs — so the layout computation is well-defined (and
empty) even though the device list is empty, contrary to the claim that
it is well-defined only under a non-empty device list. -/
theorem C10_empty_list_defined :
    widgetLayoutDefined [] = true ∧ widgetConstraints [] = [] :=
  ⟨rfl, rfl⟩

/-- C10 (amended): `Widget::render` computes each vertical constraint as
100 divided by the u16-truncated device count, with no zero-device guard
of its own (unlike `draw`, which exits with code 1 on an empty list); for
a non-empty device list of fewer than 2^16 devices every constraint is
the well-defined value 100 / count, while for an empty list no division
is ever executed and the constraint list is empty. -/
theorem C10_render_division_guard (gpus : List GPUInfo)
    (hne : gpus ≠ []) (hsmall : gpus.length < 65536) :
    widgetConstraints gpus =
      List.replicate gpus.length (some (100 / gpus.length)) ∧
    drawLayoutStep [] = DrawStep.exit { code := 1, stderrMsg := noGpuMessage } ∧
    widgetConstraints [] = [] := by
  have hcast : u16cast gpus.length = gpus.length := Nat.mod_eq_of_lt hsmall
  have hlen : gpus.length ≠ 0 := fun h0 => hne (List.eq_nil_of_length_eq_zero h0)
  refine ⟨?_, rfl, rfl⟩
  rw [widgetConstraints, List.map_const']
  rw [checkedDiv, hcast, if_neg hlen]

/-- C10 witness: the amended statement evaluated on a single-device
list. -/
theorem C10_render_division_guard_witness :
    widgetConstraints [initGPU "w"] =
      List.replicate ([initGPU "w"] : List GPUInfo).length
        (some (100 / ([initGPU "w"] : List GPUInfo).length)) :=
  (C10_render_division_guard [initGPU "w"] (by decide) (by decide)).1
